import Mathlib

/-!
Shallow embedding of `generate_license_report.py` (ethan-li/license-reporter).

Python strings are modelled as Lean `String`, with the character-level
operations (`str.lower`, `str.strip`, `in`, `startswith`, slicing) defined
over `String.data` so that they evaluate by kernel reduction.  All strings
appearing in the program and in the manifests under study are ASCII, where
these models agree with Python's semantics.
-/

namespace LicenseReport

/-- Single quote character, written via its code point. -/
def squote : Char := Char.ofNat 39

/-- Opening brace character, written via its code point. -/
def obrace : Char := Char.ofNat 123

/-- Closing brace character, written via its code point. -/
def cbrace : Char := Char.ofNat 125

/-- Models Python `str.lower()` (ASCII). -/
def lowerStr (s : String) : String := String.mk (s.data.map Char.toLower)

/-- Python's `\s` / `str.strip` whitespace characters (ASCII range). -/
def pyIsSpace (c : Char) : Bool :=
  c = ' ' || c = '\t' || c = '\n' || c = '\r' || c = Char.ofNat 11 || c = Char.ofNat 12

/-- Models Python `str.strip()`: drop whitespace from both ends. -/
def pyStrip (s : String) : String :=
  String.mk (((s.data.dropWhile pyIsSpace).reverse.dropWhile pyIsSpace).reverse)

/-- `needle` occurs as a contiguous sublist of `hay`. -/
def containsSub (needle : List Char) (hay : List Char) : Bool :=
  match hay with
  | [] => needle.isEmpty
  | _ :: rest => needle.isPrefixOf hay || containsSub needle rest

/-- Models Python `needle in hay` for strings. -/
def strContains (hay needle : String) : Bool := containsSub needle.data hay.data

/-- Models Python `s.startswith(pre)`. -/
def pyStartsWith (s pre : String) : Bool := pre.data.isPrefixOf s.data

/-- Models Python `s.endswith(suf)`. -/
def pyEndsWith (s suf : String) : Bool := suf.data.isSuffixOf s.data

/-- `class DependencyInfo`: name, version specifier and dependency group. -/
structure DependencyInfo where
  name : String
  version_spec : String
  dep_type : String
deriving DecidableEq, Repr

/-- `DependencyInfo.__init__` strips name and version_spec. -/
def mkDependencyInfo (name : String) (version_spec : String := "")
    (dep_type : String := "runtime") : DependencyInfo :=
  ⟨pyStrip name, pyStrip version_spec, dep_type⟩

/-- `self.build_time_packages`: build-time packages excluded from runtime reports. -/
def build_time_packages : List String :=
  ["pip", "setuptools", "wheel", "build", "twine", "virtualenv", "venv",
   "pyinstaller", "pytest", "mypy", "black", "flake8", "isort", "coverage",
   "tox", "pre-commit", "sphinx", "mkdocs", "jupyter", "notebook",
   "ipython", "ipykernel", "conda", "mamba", "poetry", "pipenv", "flit",
   "hatch", "pdm", "bandit", "safety", "autopep8", "yapf", "pylint",
   "pydocstyle", "pycodestyle", "pyflakes", "mccabe"]

/-- `self.type_stub_packages`: type-stub prefixes / packages. -/
def type_stub_packages : List String :=
  ["types-", "typing-extensions", "mypy-extensions", "stub-"]

/-- `self.test_packages`: testing frameworks and related packages. -/
def test_packages : List String :=
  ["pytest", "unittest2", "nose", "nose2", "testtools", "mock",
   "pytest-cov", "pytest-xdist", "pytest-mock", "factory-boy",
   "faker", "hypothesis", "tox", "coverage", "codecov"]

/-- Keywords whose presence (in the lowercased license text) means no
attribution is required (`no_attribution` in `_requires_attribution`). -/
def no_attribution : List String := ["public domain", "unlicense", "wtfpl"]

/-- Keywords whose presence means attribution is required
(`attribution_required` in `_requires_attribution`). -/
def attribution_required : List String :=
  ["mit", "bsd", "apache", "isc", "mpl", "mozilla", "creative commons", "cc-by"]

/-- `LicenseReporter._requires_attribution`: lowercase the text, return
`false` on a no-attribution keyword, otherwise `true` on an
attribution-required keyword, otherwise `true` (conservative default). -/
def requiresAttribution (license_text : String) : Bool :=
  let license_lower := lowerStr license_text
  if no_attribution.any (fun k => strContains license_lower k) then false
  else if attribution_required.any (fun k => strContains license_lower k) then true
  else true

/-! ### `_matches_pattern`

The Python code builds a regex from the pattern by textual replacement,
`pattern.replace('*', '.*').replace('?', '.')`, and runs
`re.match(f'^{regex}$', name, re.IGNORECASE)`.  We model the fragment of
regexes this produces for patterns over glob characters and
non-metacharacter literals: `*` becomes `.*` (token `.star`), `?` becomes
`.` (token `.dot`), a literal `.` in the pattern stays a regex `.` (token
`.dot`), and every other non-metacharacter is a literal.  A pattern
character in `regexMetaChars` other than `.` reaches `re.match` unescaped
as a regex operator (quantifier, group, class, anchor, alternation,
escape); those operators are OUTSIDE the modelled fragment — the model
maps them to literal tokens, so statements about the matcher's behavior
are made only under a `plainGlobChar` hypothesis confining the pattern to
the faithful fragment.  The regex wildcard `.` (and hence `.*`) does not
match a newline (`_matches_pattern` passes no `re.DOTALL`), and the final
`$` also matches just before one trailing newline; both are modelled. -/

/-- Characters that the regex engine treats specially and that
`_matches_pattern` passes through unescaped.  `*` and `?` are absent
(they are the glob wildcards, replaced before the regex is compiled);
`.` is listed because it reaches the regex as the any-character
wildcard — its behavior is modelled, while the operators formed by the
other characters here are not. -/
def regexMetaChars : List Char :=
  ['.', '+', '(', ')', '[', ']', '^', '$', '|', '\\', obrace, cbrace]

/-- A pattern character inside the faithfully modelled glob fragment:
anything except the unreplaced regex metacharacters. -/
def plainGlobChar (c : Char) : Bool := !(regexMetaChars.contains c)

/-- A token of the regex produced by `_matches_pattern`'s translation. -/
inductive RTok where
  | lit (c : Char)
  | dot
  | star
deriving DecidableEq, Repr

/-- Translation performed by `pattern.replace('*', '.*').replace('?', '.')`,
read off per character of the original pattern; a pattern `.` is kept
verbatim and hence is a regex `.` (any single character). -/
def translatePattern (p : List Char) : List RTok :=
  p.map fun c =>
    if c = '*' then RTok.star
    else if c = '?' then RTok.dot
    else if c = '.' then RTok.dot
    else RTok.lit c

/-- Anchored matching of the translated regex against the name, with
`re.IGNORECASE` modelled by lowercasing literal comparisons.  As in
`re` without `re.DOTALL`, the `.` wildcard (and therefore the `.*` from
a glob `*`) does not match a newline, and the anchoring `$` matches at
the end of the name or just before one trailing newline. -/
def rmatch : List RTok → List Char → Bool
  | [], s => s.isEmpty || (s = ['\n'] : Bool)
  | RTok.lit c :: ts, s =>
    match s with
    | [] => false
    | x :: xs => (c.toLower = x.toLower : Bool) && rmatch ts xs
  | RTok.dot :: ts, s =>
    match s with
    | [] => false
    | x :: xs => !(x = '\n' : Bool) && rmatch ts xs
  | RTok.star :: ts, s =>
    rmatch ts s ||
      (match s with
       | [] => false
       | x :: xs => !(x = '\n' : Bool) && rmatch (RTok.star :: ts) xs)
termination_by ts s => (s.length, ts.length)

/-- `LicenseReporter._matches_pattern(name, pattern)`. -/
def matchesPattern (name pattern : String) : Bool :=
  rmatch (translatePattern pattern.data) name.data

/-- Glob matching as described by the specification: `*` matches any run of
characters, `?` matches exactly one character, and every other pattern
character matches only itself, case-insensitively and anchored at both
ends.  This follows the spec's words, for comparison with
`matchesPattern`. -/
def globMatchSpec : List Char → List Char → Bool
  | [], s => s.isEmpty
  | '*' :: ps, s =>
    globMatchSpec ps s ||
      (match s with
       | [] => false
       | _ :: xs => globMatchSpec ('*' :: ps) xs)
  | p :: ps, s =>
    match s with
    | [] => false
    | x :: xs => (p = '?' || (p.toLower = x.toLower : Bool)) && globMatchSpec ps xs
termination_by ps s => (s.length, ps.length)

/-- One dependency's fate in `filter_dependencies`: mirrors the chain of
`continue` statements; `true` means the dependency is appended. -/
def keepDep (include_dev include_optional runtime_only : Bool)
    (exclude_patterns : List String) (dep : DependencyInfo) : Bool :=
  if exclude_patterns.any (fun pattern => matchesPattern dep.name pattern) then false
  else if runtime_only && !(dep.dep_type = "runtime" : Bool) then false
  else if !include_dev && (dep.dep_type = "dev" : Bool) then false
  else if !include_optional && (dep.dep_type = "optional" : Bool) then false
  else if runtime_only && build_time_packages.contains (lowerStr dep.name) then false
  else if runtime_only && type_stub_packages.any (fun stub => pyStartsWith dep.name stub) then false
  else if runtime_only && test_packages.contains (lowerStr dep.name) then false
  else true

/-- `LicenseReporter.filter_dependencies`. -/
def filter_dependencies (dependencies : List DependencyInfo)
    (include_dev : Bool := false) (include_optional : Bool := false)
    (runtime_only : Bool := false) (exclude_patterns : List String := []) :
    List DependencyInfo :=
  dependencies.filter (keepDep include_dev include_optional runtime_only exclude_patterns)

/-! ### Name/version splitting -/

/-- The version-comparison operator characters of the regex `[<>=!]`. -/
def isCompChar (c : Char) : Bool := c = '<' || c = '>' || c = '=' || c = '!'

/-- Models `re.split(r'[<>=!]', spec)[0]`: the prefix of `spec` before the
first comparison-operator character. -/
def reSplitFirst (spec : String) : String :=
  String.mk (spec.data.takeWhile (fun c => !isCompChar c))

/-- The name/version split used by `parse_setup_py` and
`parse_pyproject_toml`:
`name = re.split(r'[<>=!]', spec)[0].strip()` and
`version_spec = spec[len(name):].strip()`. -/
def splitNameVer (spec : String) : String × String :=
  let name := pyStrip (reSplitFirst spec)
  (name, pyStrip (String.mk (spec.data.drop name.length)))

/-- The split as described by the specification's words: everything before
the first comparison-operator character is the name, everything from that
character on is the version_spec.  Stated from the spec, for comparison
with the source-derived split functions. -/
def specSplitNameVer (spec : String) : String × String :=
  let pre := spec.data.takeWhile (fun c => !isCompChar c)
  (String.mk pre, String.mk (spec.data.drop pre.length))

/-! ### `parse_requirements_txt`

A requirements file is modelled as the stream of events produced by
iterating over its decoded lines: `Except.ok line` is a successfully
decoded line, `Except.error ()` is an exception raised at that point of
the iteration (e.g. a `UnicodeDecodeError` or `OSError`).  The `try`
block in the source catches the exception, prints a warning, and the
function returns the `dependencies` list accumulated so far. -/

/-- The character class `[a-zA-Z0-9_.-]` of the line-parsing regex. -/
def reqNameChar (c : Char) : Bool :=
  c.isAlpha || c.isDigit || c = '_' || c = '.' || c = '-'

/-- `LicenseReporter._determine_dep_type_from_filename`. -/
def determine_dep_type_from_filename (filename : String) : String :=
  let filename_lower := lowerStr filename
  if ["dev", "development"].any (fun k => strContains filename_lower k) then "dev"
  else if ["test", "testing"].any (fun k => strContains filename_lower k) then "dev"
  else if ["doc", "docs"].any (fun k => strContains filename_lower k) then "dev"
  else "runtime"

/-- The loop body of `parse_requirements_txt` for one decoded line:
strip; skip blank, comment (`#`) and option (`-`) lines; match
`^([a-zA-Z0-9_.-]+)(.*)$` and build a `DependencyInfo` from the groups. -/
def parseReqLine (file_name : String) (raw : String) : Option DependencyInfo :=
  let line := pyStrip raw
  if line.data.isEmpty then none
  else if pyStartsWith line "#" then none
  else if pyStartsWith line "-" then none
  else
    let name_chars := line.data.takeWhile reqNameChar
    if name_chars.isEmpty then none
    else
      some (mkDependencyInfo (String.mk name_chars)
        (String.mk (line.data.drop name_chars.length))
        (determine_dep_type_from_filename file_name))

/-- `LicenseReporter.parse_requirements_txt` over the line-event stream:
an exception ends the iteration and the entries accumulated so far are
returned (the `except` clause only prints a warning). -/
def parse_requirements_txt (file_name : String) :
    List (Except Unit String) → List DependencyInfo
  | [] => []
  | Except.error _ :: _ => []
  | Except.ok raw :: rest =>
    match parseReqLine file_name raw with
    | some dep => dep :: parse_requirements_txt file_name rest
    | none => parse_requirements_txt file_name rest

/-! ### `parse_setup_py`

The source performs a best-effort textual scan:
`re.search(r'install_requires\s*=\s*\[(.*?)\]', content, re.DOTALL)` and
`re.search(r'extras_require\s*=\s*{(.*?)}', content, re.DOTALL)`, then
`re.findall(r'["\']([^"\']+)["\']', captured)`.  The scan is implemented
below directly over character lists with the same leftmost-match,
shortest-capture semantics. -/

/-- Content of `s` strictly before the first occurrence of `c`
(`none` when `c` does not occur): the non-greedy capture `(.*?)`
followed by the closing bracket. -/
def takeUntil (c : Char) : List Char → Option (List Char)
  | [] => none
  | x :: xs => if x = c then some [] else (takeUntil c xs).map (x :: ·)

/-- Matches `\s*=\s*⟨openB⟩(.*?)⟨closeB⟩` at the start of `s`, returning
the capture. -/
def matchAfterKey (openB closeB : Char) (s : List Char) : Option (List Char) :=
  match s.dropWhile pyIsSpace with
  | '=' :: s2 =>
    match s2.dropWhile pyIsSpace with
    | b :: s4 => if b = openB then takeUntil closeB s4 else none
    | [] => none
  | _ => none

/-- `re.search` for `⟨key⟩\s*=\s*⟨openB⟩(.*?)⟨closeB⟩` with `re.DOTALL`:
scan start positions left to right, return the first successful capture. -/
def searchKeyCapture (key : List Char) (openB closeB : Char) :
    List Char → Option (List Char)
  | [] => none
  | c :: cs =>
    if key.isPrefixOf (c :: cs) then
      match matchAfterKey openB closeB ((c :: cs).drop key.length) with
      | some cap => some cap
      | none => searchKeyCapture key openB closeB cs
    else searchKeyCapture key openB closeB cs

/-- The quote characters of the class `["\']`. -/
def isQuote (c : Char) : Bool := c = '"' || c = squote

/-- `re.findall(r'["\']([^"\']+)["\']', s)`: non-overlapping matches of a
quote, a nonempty run of non-quote characters, and a quote. -/
def findQuoted : List Char → List String
  | [] => []
  | c :: cs =>
    if isQuote c then
      let run := cs.takeWhile (fun x => !isQuote x)
      let rest := cs.drop run.length
      if rest.isEmpty then findQuoted cs
      else if run.isEmpty then findQuoted cs
      else String.mk run :: findQuoted rest.tail
    else findQuoted cs
termination_by l => l.length
decreasing_by
  all_goals (simp only [List.length_tail, List.length_drop, List.length_cons]; omega)

/-- `LicenseReporter.parse_setup_py`.  The file is modelled as
`Except.ok content` when the read succeeds and `Except.error ()` when
`open`/`read` raises (the `except` clause prints a warning and the empty
list is returned). -/
def parse_setup_py (file : Except Unit String) : List DependencyInfo :=
  match file with
  | Except.error _ => []
  | Except.ok content =>
    let fromInstall :=
      match searchKeyCapture "install_requires".data '[' ']' content.data with
      | some cap =>
        (findQuoted cap).map fun package_spec =>
          let nv := splitNameVer package_spec
          mkDependencyInfo nv.1 nv.2 "runtime"
      | none => []
    let fromExtras :=
      match searchKeyCapture "extras_require".data obrace cbrace content.data with
      | some cap =>
        ((findQuoted cap).filter fun s =>
            strContains s "=" || strContains s ">" || strContains s "<").map
          fun package_spec =>
            let nv := splitNameVer package_spec
            mkDependencyInfo nv.1 nv.2 "optional"
      | none => []
    fromInstall ++ fromExtras

/-! ### `parse_pyproject_toml`

`toml.load` is a third-party decoder (an external collaborator of the
core, like `pkg_resources`); the file is therefore modelled by the data
the decoder yields.  `Except.error ()` covers both a missing `toml`
module and a raised decoding error; in either case the source prints a
warning and returns the empty list. -/

/-- A TOML value as used by the poetry branch: `str(spec)` of a
non-table value, or a table (for which the source uses `""`). -/
inductive TomlVal where
  | prim (s : String)
  | table
deriving DecidableEq, Repr

/-- `str(spec) if not isinstance(spec, dict) else ""`. -/
def tomlValStr : TomlVal → String
  | TomlVal.prim s => s
  | TomlVal.table => ""

/-- The `[project]` table fields read by the source. -/
structure ProjectTable where
  dependencies : Option (List String) := none
  optional_dependencies : Option (List (String × List String)) := none
deriving DecidableEq, Repr

/-- The `[tool.poetry]` table fields read by the source. -/
structure PoetryTable where
  dependencies : Option (List (String × TomlVal)) := none
  dev_dependencies : Option (List (String × TomlVal)) := none
deriving DecidableEq, Repr

/-- The decoded `pyproject.toml` data reachable by the source's key
lookups (`data['project']`, `data['tool']['poetry']`). -/
structure TomlData where
  project : Option ProjectTable := none
  poetry : Option PoetryTable := none
deriving DecidableEq, Repr

/-- `LicenseReporter.parse_pyproject_toml`. -/
def parse_pyproject_toml (file : Except Unit TomlData) : List DependencyInfo :=
  match file with
  | Except.error _ => []
  | Except.ok data =>
    let pep621Runtime :=
      match data.project with
      | some proj =>
        match proj.dependencies with
        | some specs => specs.map fun dep_spec =>
            let nv := splitNameVer dep_spec
            mkDependencyInfo nv.1 nv.2 "runtime"
        | none => []
      | none => []
    let pep621Optional :=
      match data.project with
      | some proj =>
        match proj.optional_dependencies with
        | some groups => groups.flatMap fun g =>
            let dep_type :=
              if g.1 = "dev" || g.1 = "test" || g.1 = "docs" then "dev" else "optional"
            g.2.map fun dep_spec =>
              let nv := splitNameVer dep_spec
              mkDependencyInfo nv.1 nv.2 dep_type
        | none => []
      | none => []
    let poetryRuntime :=
      match data.poetry with
      | some poetry =>
        match poetry.dependencies with
        | some entries =>
          (entries.filter fun e => !(e.1 = "python" : Bool)).map fun e =>
            mkDependencyInfo e.1 (tomlValStr e.2) "runtime"
        | none => []
      | none => []
    let poetryDev :=
      match data.poetry with
      | some poetry =>
        match poetry.dev_dependencies with
        | some entries => entries.map fun e =>
            mkDependencyInfo e.1 (tomlValStr e.2) "dev"
        | none => []
      | none => []
    pep621Runtime ++ pep621Optional ++ poetryRuntime ++ poetryDev

/-! ### Project model, discovery, and `get_all_dependencies` -/

/-- The filesystem state of a project root, one field per candidate
manifest filename of `discover_dependency_files`; `none` means the file
does not exist.  Fields never parsed by the source are kept as raw
strings. -/
structure Project where
  root : String
  requirements_txt : Option (List (Except Unit String)) := none
  setup_py : Option (Except Unit String) := none
  setup_cfg : Option String := none
  pyproject_toml : Option (Except Unit TomlData) := none
  pipfile : Option String := none
  environment_yml : Option String := none
  environment_yaml : Option String := none
  conda_yml : Option String := none
  requirements_dev_txt : Option (List (Except Unit String)) := none
  dev_requirements_txt : Option (List (Except Unit String)) := none
  test_requirements_txt : Option (List (Except Unit String)) := none

/-- Content of a discovered manifest, tagged by kind. -/
inductive FileContent where
  | txt (lines : List (Except Unit String))
  | setupPy (content : Except Unit String)
  | pyproject (data : Except Unit TomlData)
  | other (raw : String)

/-- One candidate entry of the discovery dict: present files only. -/
def optEntry {α : Type} (name : String) (f : α → FileContent) :
    Option α → List (String × FileContent)
  | some a => [(name, f a)]
  | none => []

/-- `LicenseReporter.discover_dependency_files`, in the candidate dict's
insertion order, restricted to files that exist. -/
def discover_dependency_files (p : Project) : List (String × FileContent) :=
  optEntry "requirements.txt" FileContent.txt p.requirements_txt ++
  optEntry "setup.py" FileContent.setupPy p.setup_py ++
  optEntry "setup.cfg" FileContent.other p.setup_cfg ++
  optEntry "pyproject.toml" FileContent.pyproject p.pyproject_toml ++
  optEntry "Pipfile" FileContent.other p.pipfile ++
  optEntry "environment.yml" FileContent.other p.environment_yml ++
  optEntry "environment.yaml" FileContent.other p.environment_yaml ++
  optEntry "conda.yml" FileContent.other p.conda_yml ++
  optEntry "requirements-dev.txt" FileContent.txt p.requirements_dev_txt ++
  optEntry "dev-requirements.txt" FileContent.txt p.dev_requirements_txt ++
  optEntry "test-requirements.txt" FileContent.txt p.test_requirements_txt

/-- The dispatch of `get_all_dependencies` on one discovered file:
`.txt` files go to `parse_requirements_txt`, `setup.py` to
`parse_setup_py`, `pyproject.toml` to `parse_pyproject_toml`, everything
else is skipped (`continue`). -/
def parseOneFile (entry : String × FileContent) : List DependencyInfo :=
  if pyEndsWith entry.1 ".txt" then
    match entry.2 with
    | FileContent.txt lines => parse_requirements_txt entry.1 lines
    | _ => []
  else if entry.1 = "setup.py" then
    match entry.2 with
    | FileContent.setupPy c => parse_setup_py c
    | _ => []
  else if entry.1 = "pyproject.toml" then
    match entry.2 with
    | FileContent.pyproject d => parse_pyproject_toml d
    | _ => []
  else []

/-- `LicenseReporter.get_all_dependencies`. -/
def get_all_dependencies (p : Project) : List DependencyInfo :=
  (discover_dependency_files p).flatMap parseOneFile

/-- The `dependency_files` report field:
`[str(f) for f in self.discover_dependency_files().values()]`. -/
def dependency_file_paths (p : Project) : List String :=
  (discover_dependency_files p).map fun e => p.root ++ "/" ++ e.1

/-! ### Metadata lookup and report assembly -/

/-- The fields `get_package_info` obtains from the installed-package
metadata index (`pkg_resources`, an external collaborator); each field
defaults to `"unknown"` when the package or the field is absent. -/
structure MetaInfo where
  version : String := "unknown"
  license : String := "unknown"
  author : String := "unknown"
  homepage : String := "unknown"
deriving DecidableEq, Repr

/-- One entry of the report's `packages` list: the dict produced by
`get_package_info(dep.name)` with the `dependency_type` and
`version_spec` keys added by the `generate_report` loop. -/
structure PackageRecord where
  name : String
  version : String
  license : String
  author : String
  homepage : String
  requires_attribution : Bool
  dependency_type : String
  version_spec : String
deriving DecidableEq, Repr

/-- `get_package_info` (with the metadata index as parameter: its final
`requires_attribution` entry is `_requires_attribution(info["license"])`)
followed by the two assignments of the `generate_report` loop body. -/
def mkPackageRecord (lookup : String → MetaInfo) (dep : DependencyInfo) :
    PackageRecord :=
  let info := lookup dep.name
  { name := dep.name
    version := info.version
    license := info.license
    author := info.author
    homepage := info.homepage
    requires_attribution := requiresAttribution info.license
    dependency_type := dep.dep_type
    version_spec := dep.version_spec }

/-- The report's `summary` dict. -/
structure Summary where
  total_packages : Nat
  runtime_packages : Nat
  dev_packages : Nat
  optional_packages : Nat
  requires_attribution : Nat
  unknown_licenses : Nat
deriving DecidableEq, Repr

/-- The report's `filters_applied` dict. -/
structure FiltersApplied where
  include_dev : Bool
  include_optional : Bool
  runtime_only : Bool
  exclude_patterns : List String
deriving DecidableEq, Repr

/-- The report dict built by `generate_report`. -/
structure Report where
  project : String
  project_path : String
  generated_by : String
  report_type : String
  dependency_files : List String
  packages : List PackageRecord
  summary : Summary
  excluded_build_tools : List String
  filters_applied : FiltersApplied
deriving DecidableEq, Repr

/-- The comparison of `sorted(filtered_deps, key=lambda x: x.name.lower())`. -/
def depSortLe (a b : DependencyInfo) : Bool :=
  decide (lowerStr a.name ≤ lowerStr b.name)

/-- `LicenseReporter.generate_report`.  The metadata index is a
parameter (external collaborator); the project name is taken as an input
(`_detect_project_name`'s fallback chain is outside the claims under
study and outside the spec's core). -/
def generate_report (lookup : String → MetaInfo) (p : Project)
    (include_dev : Bool := false) (include_optional : Bool := false)
    (runtime_only : Bool := false) (exclude_patterns : List String := [])
    (project_name : String := "") : Report :=
  let all_deps := get_all_dependencies p
  let filtered_deps :=
    filter_dependencies all_deps include_dev include_optional runtime_only exclude_patterns
  let report_type :=
    if runtime_only then "Runtime Dependencies (PyInstaller Bundled)"
    else if include_dev && include_optional then
      "All Dependencies (Runtime + Development + Optional)"
    else if include_dev then "Runtime + Development Dependencies"
    else "Runtime Dependencies"
  let sorted_deps := filtered_deps.mergeSort depSortLe
  let packages := sorted_deps.map (mkPackageRecord lookup)
  { project := project_name
    project_path := p.root
    generated_by := "Universal Python License Reporter"
    report_type := report_type
    dependency_files := dependency_file_paths p
    packages := packages
    summary :=
      { total_packages := filtered_deps.length
        runtime_packages := sorted_deps.countP (fun d => (d.dep_type = "runtime" : Bool))
        dev_packages := sorted_deps.countP (fun d => (d.dep_type = "dev" : Bool))
        optional_packages := sorted_deps.countP (fun d => (d.dep_type = "optional" : Bool))
        requires_attribution := packages.countP (fun pk => pk.requires_attribution)
        unknown_licenses := packages.countP (fun pk => (pk.license = "unknown" : Bool)) }
    excluded_build_tools := if runtime_only then build_time_packages else []
    filters_applied := ⟨include_dev, include_optional, runtime_only, exclude_patterns⟩ }

/-! ### Characterization of the filter -/

/-- A dependency is kept by `filter_dependencies` exactly when it survives
every `continue` of the loop body. -/
lemma keepDep_eq_true (id io ro : Bool) (ex : List String) (dep : DependencyInfo) :
    keepDep id io ro ex dep = true ↔
      (∀ pattern ∈ ex, matchesPattern dep.name pattern = false) ∧
      (ro = true → dep.dep_type = "runtime") ∧
      (dep.dep_type = "dev" → id = true) ∧
      (dep.dep_type = "optional" → io = true) ∧
      (ro = true → build_time_packages.contains (lowerStr dep.name) = false) ∧
      (ro = true → ∀ stub ∈ type_stub_packages, pyStartsWith dep.name stub = false) ∧
      (ro = true → test_packages.contains (lowerStr dep.name) = false) := by
  simp only [keepDep]
  split_ifs with h1 h2 h3 h4 h5 h6 h7 <;>
    simp_all [List.any_eq_true, Bool.and_eq_true, Bool.not_eq_true',
      decide_eq_true_eq, Bool.not_eq_true]
  exact ⟨fun hdev => by cases id <;> simp_all, fun hopt => by cases io <;> simp_all⟩

/-- C1: for every dependency list and every setting of the flags,
`filter_dependencies` returns a subsequence of its input (hence of no
greater length, preserving relative order), and every retained element
satisfies all active filtering rules: its name matches no exclude
pattern; under runtime_only its group is runtime, its lowercased name is
in neither the build-tool nor the test-tool denylist and its name starts
with no type-stub prefix; a dev element implies include_dev; an optional
element implies include_optional. -/
theorem C1_filter_is_subsequence_and_satisfies_rules :
    ∀ (D : List DependencyInfo) (include_dev include_optional runtime_only : Bool)
      (exclude_patterns : List String),
      (filter_dependencies D include_dev include_optional runtime_only
          exclude_patterns).Sublist D ∧
      (filter_dependencies D include_dev include_optional runtime_only
          exclude_patterns).length ≤ D.length ∧
      ∀ dep ∈ filter_dependencies D include_dev include_optional runtime_only
          exclude_patterns,
        (∀ pattern ∈ exclude_patterns, matchesPattern dep.name pattern = false) ∧
        (runtime_only = true →
          dep.dep_type = "runtime" ∧
          build_time_packages.contains (lowerStr dep.name) = false ∧
          test_packages.contains (lowerStr dep.name) = false ∧
          ∀ stub ∈ type_stub_packages, pyStartsWith dep.name stub = false) ∧
        (dep.dep_type = "dev" → include_dev = true) ∧
        (dep.dep_type = "optional" → include_optional = true) := by
  intro D id io ro ex
  refine ⟨List.filter_sublist D, (List.filter_sublist D).length_le, ?_⟩
  intro dep hmem
  rw [filter_dependencies, List.mem_filter] at hmem
  obtain ⟨hpat, hrt, hdev, hopt, hbuild, hstub, htest⟩ := (keepDep_eq_true ..).mp hmem.2
  exact ⟨hpat, fun hro => ⟨hrt hro, hbuild hro, htest hro, hstub hro⟩, hdev, hopt⟩

/-- Witness for C1 at a concrete input. -/
theorem C1_witness :
    (filter_dependencies [⟨"requests", "==2.0", "runtime"⟩] false false true
        []).Sublist [⟨"requests", "==2.0", "runtime"⟩] ∧
    (⟨"requests", "==2.0", "runtime"⟩ : DependencyInfo).dep_type = "runtime" := by
  have h := C1_filter_is_subsequence_and_satisfies_rules
    [⟨"requests", "==2.0", "runtime"⟩] false false true []
  exact ⟨h.1, ((h.2.2 ⟨"requests", "==2.0", "runtime"⟩ (by decide)).2.1 rfl).1⟩

/-- C3: in every generated report, `summary.total_packages` equals the
number of entries of `packages`, the per-group counts equal the number
of packages of the corresponding dependency type, and the attribution
and unknown-license counts equal the number of packages with
`requires_attribution` set, resp. with license `"unknown"` — all over
the final filtered and merged package list. -/
theorem C3_summary_counts_recomputed_from_packages :
    ∀ (lookup : String → MetaInfo) (p : Project)
      (include_dev include_optional runtime_only : Bool)
      (exclude_patterns : List String) (project_name : String),
      let r := generate_report lookup p include_dev include_optional runtime_only
        exclude_patterns project_name
      r.summary.total_packages = r.packages.length ∧
      r.summary.runtime_packages =
        r.packages.countP (fun pk => (pk.dependency_type = "runtime" : Bool)) ∧
      r.summary.dev_packages =
        r.packages.countP (fun pk => (pk.dependency_type = "dev" : Bool)) ∧
      r.summary.optional_packages =
        r.packages.countP (fun pk => (pk.dependency_type = "optional" : Bool)) ∧
      r.summary.requires_attribution =
        r.packages.countP (fun pk => pk.requires_attribution) ∧
      r.summary.unknown_licenses =
        r.packages.countP (fun pk => (pk.license = "unknown" : Bool)) := by
  intro lookup p id io ro ex nm
  refine ⟨?_, ?_, ?_, ?_, rfl, rfl⟩
  · simp [generate_report, List.length_mergeSort]
  · simp only [generate_report]; rw [List.countP_map]; rfl
  · simp only [generate_report]; rw [List.countP_map]; rfl
  · simp only [generate_report]; rw [List.countP_map]; rfl

/-- C5: `_requires_attribution` returns false exactly when the lowercased
text contains a no-attribution keyword (this check runs first and wins);
when it does not, the result is true whether or not an
attribution-required keyword occurs (conservative default); the four
documented examples evaluate accordingly. -/
theorem C5_attribution_policy :
    (∀ (license_text : String),
      (requiresAttribution license_text = false ↔
        no_attribution.any (fun k => strContains (lowerStr license_text) k) = true)) ∧
    (∀ (license_text : String),
      no_attribution.any (fun k => strContains (lowerStr license_text) k) = false →
      requiresAttribution license_text = true) ∧
    requiresAttribution "MIT License" = true ∧
    requiresAttribution "" = true ∧
    requiresAttribution "Public Domain" = false ∧
    requiresAttribution "Unlicense" = false := by
  have key : ∀ (t : String),
      requiresAttribution t = false ↔
        no_attribution.any (fun k => strContains (lowerStr t) k) = true := by
    intro t
    simp only [requiresAttribution]
    split_ifs with h1 h2 <;> simp_all
  refine ⟨key, ?_, by decide, by decide, by decide, by decide⟩
  intro t hf
  cases h : requiresAttribution t with
  | true => rfl
  | false => rw [(key t).mp h] at hf; exact absurd hf (by simp)

/-- Witness for C5 at a concrete input. -/
theorem C5_witness : requiresAttribution "MIT License" = true :=
  C5_attribution_policy.2.1 "MIT License" (by decide)

/-- C10: in every generated report the unknown-license count is at most
the attribution-required count, because `_requires_attribution` applied
to `"unknown"` returns true. -/
theorem C10_unknown_licenses_le_requires_attribution :
    ∀ (lookup : String → MetaInfo) (p : Project)
      (include_dev include_optional runtime_only : Bool)
      (exclude_patterns : List String) (project_name : String),
      let r := generate_report lookup p include_dev include_optional runtime_only
        exclude_patterns project_name
      r.summary.unknown_licenses ≤ r.summary.requires_attribution ∧
      requiresAttribution "unknown" = true := by
  intro lookup p id io ro ex nm
  refine ⟨?_, by decide⟩
  simp only [generate_report]
  apply List.countP_mono_left
  intro pk hpk h
  rw [List.mem_map] at hpk
  obtain ⟨d, -, rfl⟩ := hpk
  simp only [mkPackageRecord, decide_eq_true_eq] at h ⊢
  rw [h]
  decide

/-! ### Name/version split: C4 -/

/-- Dropping a leading whitespace run is the identity on
whitespace-free character lists. -/
lemma dropWhile_space_eq_self {l : List Char} (h : ∀ c ∈ l, pyIsSpace c = false) :
    l.dropWhile pyIsSpace = l := by
  cases l with
  | nil => rfl
  | cons c cs => rw [List.dropWhile_cons_of_neg]; simp [h c (by simp)]

/-- `str.strip()` is the identity on whitespace-free strings. -/
lemma pyStrip_eq_self {l : List Char} (h : ∀ c ∈ l, pyIsSpace c = false) :
    pyStrip (String.mk l) = String.mk l := by
  show String.mk (((l.dropWhile pyIsSpace).reverse.dropWhile pyIsSpace).reverse) = String.mk l
  rw [dropWhile_space_eq_self h,
    dropWhile_space_eq_self (fun c hc => h c (by simpa using hc)),
    List.reverse_reverse]

/-- On whitespace-free spec strings the code's split (strip-based) agrees
with the first-comparison-character split. -/
lemma splitNameVer_eq_spec_of_no_space (spec : String)
    (h : ∀ c ∈ spec.data, pyIsSpace c = false) :
    splitNameVer spec = specSplitNameVer spec := by
  have hsub : ∀ c ∈ spec.data.takeWhile (fun c => !isCompChar c), pyIsSpace c = false :=
    fun c hc => h c ((List.takeWhile_sublist _).subset hc)
  have hname := pyStrip_eq_self hsub
  have hdrop : ∀ c ∈ spec.data.drop (spec.data.takeWhile (fun c => !isCompChar c)).length,
      pyIsSpace c = false := fun c hc => h c (List.drop_subset _ _ hc)
  simp only [splitNameVer, specSplitNameVer, reSplitFirst, hname, String.length,
    pyStrip_eq_self hdrop]

/-- C4 counterexample: the claim's first-comparison-character rule fails
for `parse_requirements_txt`, which instead takes the longest
`[a-zA-Z0-9_.-]` prefix as the name: on the line
`"requests[security]==2.0"` the code yields name `"requests"` and
version_spec `"[security]==2.0"`, while the claimed rule would yield
name `"requests[security]"` and version_spec `"==2.0"`. -/
theorem C4_counterexample :
    parse_requirements_txt "requirements.txt" [Except.ok "requests[security]==2.0"] =
      [⟨"requests", "[security]==2.0", "runtime"⟩] ∧
    specSplitNameVer "requests[security]==2.0" = ("requests[security]", "==2.0") ∧
    ("requests" : String) ≠ "requests[security]" :=
  ⟨rfl, rfl, by decide⟩

unseal findQuoted in
/-- C4 amended: the first-comparison-character split is the one used for
spec strings in `parse_setup_py` and `parse_pyproject_toml` (where it
agrees with the claim on whitespace-free spec strings), while
`parse_requirements_txt` splits a line at the longest
`[a-zA-Z0-9_.-]` prefix; on both documented examples the two rules
agree: `"requests>=2.0,<3.0"` yields `("requests", ">=2.0,<3.0")` and
`"six"` yields `("six", "")`. -/
theorem C4_amended_split :
    (∀ (spec : String), (∀ c ∈ spec.data, pyIsSpace c = false) →
      splitNameVer spec = specSplitNameVer spec) ∧
    splitNameVer "requests>=2.0,<3.0" = ("requests", ">=2.0,<3.0") ∧
    splitNameVer "six" = ("six", "") ∧
    parse_setup_py (Except.ok "install_requires=[\"requests>=2.0,<3.0\"]") =
      [⟨"requests", ">=2.0,<3.0", "runtime"⟩] ∧
    parse_requirements_txt "requirements.txt" [Except.ok "requests>=2.0,<3.0"] =
      [⟨"requests", ">=2.0,<3.0", "runtime"⟩] ∧
    parse_requirements_txt "requirements.txt" [Except.ok "six"] =
      [⟨"six", "", "runtime"⟩] :=
  ⟨splitNameVer_eq_spec_of_no_space, rfl, rfl, by decide, rfl, rfl⟩

/-- Witness for C4's amended statement at a concrete input. -/
theorem C4_witness :
    splitNameVer "requests>=2.0,<3.0" = specSplitNameVer "requests>=2.0,<3.0" :=
  C4_amended_split.1 "requests>=2.0,<3.0" (by decide)

/-! ### Parse-failure behavior: C7 -/

/-- C7 counterexample: a failure partway through a requirements file does
not yield an empty sequence — the entries parsed before the failure are
returned. -/
theorem C7_counterexample :
    parse_requirements_txt "requirements.txt"
        [Except.ok "requests==2.31.0", Except.error ()] =
      [⟨"requests", "==2.31.0", "runtime"⟩] ∧
    parse_requirements_txt "requirements.txt"
        [Except.ok "requests==2.31.0", Except.error ()] ≠ [] :=
  ⟨rfl, by decide⟩

/-- C7 amended: a parse failure is non-fatal and never aborts the run:
`parse_requirements_txt` returns exactly the entries accumulated before
the failure point (so an immediate failure yields the empty sequence,
but a mid-file failure keeps the earlier entries); a whole-file failure
of `parse_setup_py` or `parse_pyproject_toml` yields the empty
sequence; and `get_all_dependencies` still processes the remaining
manifests, the failing file contributing only its own (possibly
partial) parse. -/
theorem C7_amended_partial_results_and_continue :
    (∀ (file_name : String) (good : List String) (junk : List (Except Unit String)),
      parse_requirements_txt file_name (good.map Except.ok ++ Except.error () :: junk) =
        parse_requirements_txt file_name (good.map Except.ok)) ∧
    (∀ (file_name : String) (junk : List (Except Unit String)),
      parse_requirements_txt file_name (Except.error () :: junk) = []) ∧
    parse_setup_py (Except.error ()) = [] ∧
    parse_pyproject_toml (Except.error ()) = [] ∧
    (∀ (p : Project) (content : List (Except Unit String)),
      get_all_dependencies { p with requirements_txt := some content } =
        parse_requirements_txt "requirements.txt" content ++
          get_all_dependencies { p with requirements_txt := none }) := by
  refine ⟨?_, fun _ _ => rfl, rfl, rfl, ?_⟩
  · intro fn good junk
    induction good with
    | nil => rfl
    | cons g gs ih =>
      simp only [List.map_cons, List.cons_append, parse_requirements_txt]
      cases parseReqLine fn g <;> simp [ih]
  · intro p content
    have he : pyEndsWith "requirements.txt" ".txt" = true := by decide
    simp [get_all_dependencies, discover_dependency_files, optEntry, parseOneFile, he]

/-! ### Unsupported manifests: C9 -/

/-- C9: dependencies declared only in `setup.cfg`, `Pipfile`,
`environment.yml`, `environment.yaml` or `conda.yml` never reach the
report: `get_all_dependencies` is unchanged by those files' presence and
content, although their paths are still listed among the discovered
dependency files. -/
theorem C9_unsupported_manifests_never_parsed :
    ∀ (p : Project) (cfg pf ey eya cy : String),
      let pWith := { p with
        setup_cfg := some cfg
        pipfile := some pf
        environment_yml := some ey
        environment_yaml := some eya
        conda_yml := some cy }
      get_all_dependencies pWith =
        get_all_dependencies { p with
          setup_cfg := none
          pipfile := none
          environment_yml := none
          environment_yaml := none
          conda_yml := none } ∧
      (p.root ++ "/" ++ "setup.cfg") ∈ dependency_file_paths pWith ∧
      (p.root ++ "/" ++ "Pipfile") ∈ dependency_file_paths pWith ∧
      (p.root ++ "/" ++ "environment.yml") ∈ dependency_file_paths pWith ∧
      (p.root ++ "/" ++ "environment.yaml") ∈ dependency_file_paths pWith ∧
      (p.root ++ "/" ++ "conda.yml") ∈ dependency_file_paths pWith := by
  intro p cfg pf ey eya cy
  have h1 : pyEndsWith "setup.cfg" ".txt" = false := by decide
  have h2 : pyEndsWith "Pipfile" ".txt" = false := by decide
  have h3 : pyEndsWith "environment.yml" ".txt" = false := by decide
  have h4 : pyEndsWith "environment.yaml" ".txt" = false := by decide
  have h5 : pyEndsWith "conda.yml" ".txt" = false := by decide
  refine ⟨?_, ?_, ?_, ?_, ?_, ?_⟩ <;>
    simp [get_all_dependencies, dependency_file_paths, discover_dependency_files,
      optEntry, parseOneFile, h1, h2, h3, h4, h5]

/-! ### Pattern matching: C6 -/

/-- Translation of a `'*'` pattern head. -/
lemma translatePattern_star (p : List Char) :
    translatePattern ('*' :: p) = RTok.star :: translatePattern p := rfl

/-- Translation of a `'?'` pattern head. -/
lemma translatePattern_qmark (p : List Char) :
    translatePattern ('?' :: p) = RTok.dot :: translatePattern p := rfl

/-- Translation of a literal pattern head. -/
lemma translatePattern_lit {c : Char} (h1 : c ≠ '*') (h2 : c ≠ '?') (h3 : c ≠ '.')
    (p : List Char) :
    translatePattern (c :: p) = RTok.lit c :: translatePattern p := by
  simp [translatePattern, h1, h2, h3]

/-- One-step unfolding of `rmatch` at a star token. -/
lemma rmatch_star_cons (ts : List RTok) (x : Char) (xs : List Char) :
    rmatch (RTok.star :: ts) (x :: xs) =
      (rmatch ts (x :: xs) || (!(x = '\n' : Bool) && rmatch (RTok.star :: ts) xs)) := by
  simp [rmatch]

/-- With no tokens left, `rmatch` on a newline-free name just tests
emptiness (the trailing-newline case of `$` cannot arise). -/
lemma rmatch_nil_of_no_newline {s : List Char} (h : ∀ c ∈ s, c ≠ '\n') :
    rmatch [] s = s.isEmpty := by
  cases s with
  | nil => simp [rmatch]
  | cons x xs =>
    have hx : x ≠ '\n' := h x (by simp)
    simp [rmatch]
    rintro rfl
    simp_all

/-- One-step unfolding of `globMatchSpec` at a star. -/
lemma globMatchSpec_star_cons (ps : List Char) (x : Char) (xs : List Char) :
    globMatchSpec ('*' :: ps) (x :: xs) =
      (globMatchSpec ps (x :: xs) || globMatchSpec ('*' :: ps) xs) := by
  simp [globMatchSpec]

/-- On patterns confined to the faithful glob fragment and names without
newlines, the regex produced by `_matches_pattern`'s textual translation
matches exactly as the specification's glob. -/
lemma rmatch_translate_agree :
    ∀ (n : Nat) (p s : List Char), p.length + s.length ≤ n →
      (∀ c ∈ p, plainGlobChar c = true) → (∀ c ∈ s, c ≠ '\n') →
      rmatch (translatePattern p) s = globMatchSpec p s := by
  intro n
  induction n with
  | zero =>
    intro p s hle hmeta hnl
    have hp : p = [] := by cases p <;> simp_all
    have hs : s = [] := by cases s <;> simp_all
    subst hp; subst hs
    simp [translatePattern, rmatch, globMatchSpec]
  | succ n ih =>
    intro p s hle hmeta hnl
    cases p with
    | nil =>
      rw [show translatePattern [] = [] from rfl, rmatch_nil_of_no_newline hnl]
      simp [globMatchSpec]
    | cons c p' =>
      have hc : c ≠ '.' := by
        have := hmeta c (by simp)
        simp [plainGlobChar, regexMetaChars] at this
        exact this.1
      have hmeta' : ∀ x ∈ p', plainGlobChar x = true :=
        fun x hx => hmeta x (by simp [hx])
      simp only [List.length_cons] at hle
      by_cases hstar : c = '*'
      · subst hstar
        cases s with
        | nil =>
          rw [translatePattern_star]
          simp only [rmatch, globMatchSpec]
          rw [ih p' [] (by simp; omega) hmeta' hnl]
        | cons x xs =>
          have hx : x ≠ '\n' := hnl x (by simp)
          have hnl' : ∀ c ∈ xs, c ≠ '\n' := fun c hcx => hnl c (by simp [hcx])
          rw [translatePattern_star, rmatch_star_cons, globMatchSpec_star_cons,
            ih p' (x :: xs) (by simp at hle ⊢; omega) hmeta' hnl]
          rw [show RTok.star :: translatePattern p' = translatePattern ('*' :: p') from rfl]
          rw [ih ('*' :: p') xs (by simp at hle ⊢; omega) hmeta hnl']
          simp [hx]
      · by_cases hq : c = '?'
        · subst hq
          cases s with
          | nil => rw [translatePattern_qmark]; simp [rmatch, globMatchSpec]
          | cons x xs =>
            have hx : x ≠ '\n' := hnl x (by simp)
            have hnl' : ∀ c ∈ xs, c ≠ '\n' := fun c hcx => hnl c (by simp [hcx])
            rw [translatePattern_qmark]
            simp only [rmatch, globMatchSpec]
            rw [ih p' xs (by simp at hle ⊢; omega) hmeta' hnl']
            simp [hx]
        · cases s with
          | nil => rw [translatePattern_lit hstar hq hc]; simp [rmatch, globMatchSpec]
          | cons x xs =>
            have hnl' : ∀ c ∈ xs, c ≠ '\n' := fun c hcx => hnl c (by simp [hcx])
            rw [translatePattern_lit hstar hq hc]
            simp only [rmatch, globMatchSpec]
            rw [ih p' xs (by simp at hle ⊢; omega) hmeta' hnl']
            simp [hq]

unseal rmatch globMatchSpec in
/-- C6 counterexample: `_matches_pattern` does not treat a pattern `.`
as a literal — the translated regex leaves it as an unescaped regex
dot, so pattern `"a.c"` matches name `"abc"`, while the claimed
literal-glob semantics rejects it. -/
theorem C6_counterexample :
    matchesPattern "abc" "a.c" = true ∧
    globMatchSpec "a.c".data "abc".data = false := by
  exact ⟨by decide, by decide⟩

unseal rmatch in
/-- C6 amended: `_matches_pattern` implements the case-insensitive,
anchored glob match of the claim (`*` any run, `?` exactly one
character, other characters literal) for every pattern whose characters
stay inside the glob fragment — the wildcards plus characters that are
not regex metacharacters — matched against newline-free names; a `.` in
the pattern instead matches any single (non-newline) character, and the
remaining regex metacharacters reach `re.match` unescaped as operators,
so no literal-matching statement is made for them.  The two documented
examples hold: `"test*"` does not match `"pytest-mock"`, `"*mock*"`
does. -/
theorem C6_amended_glob :
    (∀ (name pattern : String),
      (∀ c ∈ pattern.data, plainGlobChar c = true) →
      (∀ c ∈ name.data, c ≠ '\n') →
      matchesPattern name pattern = globMatchSpec pattern.data name.data) ∧
    matchesPattern "pytest-mock" "test*" = false ∧
    matchesPattern "pytest-mock" "*mock*" = true := by
  refine ⟨?_, by decide, by decide⟩
  intro name pattern hmeta hnl
  exact rmatch_translate_agree (pattern.data.length + name.data.length) _ _ le_rfl
    hmeta hnl

/-- Witness for C6's amended statement at a concrete input. -/
theorem C6_witness :
    matchesPattern "pytest-mock" "test*" = globMatchSpec "test*".data "pytest-mock".data :=
  C6_amended_glob.1 "pytest-mock" "test*" (by decide) (by decide)

/-! ### Report ordering and merging: C8 -/

/-- `depSortLe` is transitive. -/
lemma depSortLe_trans (a b c : DependencyInfo) (hab : depSortLe a b = true)
    (hbc : depSortLe b c = true) : depSortLe a c = true := by
  simp only [depSortLe, decide_eq_true_eq] at hab hbc ⊢
  exact le_trans hab hbc

/-- `depSortLe` is total. -/
lemma depSortLe_total (a b : DependencyInfo) :
    (depSortLe a b || depSortLe b a) = true := by
  simp only [depSortLe, Bool.or_eq_true, decide_eq_true_eq]
  exact le_total _ _

/-- C8: in every generated report the packages sequence is sorted by
lowercased name (each adjacent pair is `≤`), and each entry is the merge
of a filtered dependency's manifest-declared fields (dependency type,
version spec) with the looked-up metadata fields and the computed
attribution flag. -/
theorem C8_packages_sorted_and_merged :
    ∀ (lookup : String → MetaInfo) (p : Project)
      (include_dev include_optional runtime_only : Bool)
      (exclude_patterns : List String) (project_name : String),
      let r := generate_report lookup p include_dev include_optional runtime_only
        exclude_patterns project_name
      List.Chain' (fun a b => lowerStr a.name ≤ lowerStr b.name) r.packages ∧
      ∀ pk ∈ r.packages,
        ∃ dep ∈ filter_dependencies (get_all_dependencies p) include_dev
            include_optional runtime_only exclude_patterns,
          pk.name = dep.name ∧ pk.dependency_type = dep.dep_type ∧
          pk.version_spec = dep.version_spec ∧
          pk.version = (lookup dep.name).version ∧
          pk.license = (lookup dep.name).license ∧
          pk.author = (lookup dep.name).author ∧
          pk.homepage = (lookup dep.name).homepage ∧
          pk.requires_attribution = requiresAttribution (lookup dep.name).license := by
  intro lookup p id io ro ex nm
  dsimp only [generate_report]
  constructor
  · refine List.Pairwise.chain' ?_
    rw [List.pairwise_map]
    refine (List.sorted_mergeSort depSortLe_trans depSortLe_total
      (filter_dependencies (get_all_dependencies p) id io ro ex)).imp ?_
    intro a b h
    simpa [depSortLe] using h
  · intro pk hpk
    rw [List.mem_map] at hpk
    obtain ⟨d, hd, rfl⟩ := hpk
    rw [List.mem_mergeSort] at hd
    exact ⟨d, hd, rfl, rfl, rfl, rfl, rfl, rfl, rfl, rfl⟩

/-- Sample metadata index used by concrete witnesses: nothing is
installed, all fields are `"unknown"`. -/
def sampleLookup : String → MetaInfo := fun _ => {}

/-- Sample project used by concrete witnesses: a root with a single
`requirements.txt` declaring `six`. -/
def sampleProject : Project :=
  { root := "/r", requirements_txt := some [Except.ok "six"] }

/-- Witness for C8 at a concrete input. -/
theorem C8_witness :
    ∃ dep ∈ filter_dependencies (get_all_dependencies sampleProject) false false
        false [],
      (mkPackageRecord sampleLookup ⟨"six", "", "runtime"⟩).name = dep.name ∧
      (mkPackageRecord sampleLookup ⟨"six", "", "runtime"⟩).dependency_type = dep.dep_type ∧
      (mkPackageRecord sampleLookup ⟨"six", "", "runtime"⟩).version_spec = dep.version_spec ∧
      (mkPackageRecord sampleLookup ⟨"six", "", "runtime"⟩).version = (sampleLookup dep.name).version ∧
      (mkPackageRecord sampleLookup ⟨"six", "", "runtime"⟩).license = (sampleLookup dep.name).license ∧
      (mkPackageRecord sampleLookup ⟨"six", "", "runtime"⟩).author = (sampleLookup dep.name).author ∧
      (mkPackageRecord sampleLookup ⟨"six", "", "runtime"⟩).homepage = (sampleLookup dep.name).homepage ∧
      (mkPackageRecord sampleLookup ⟨"six", "", "runtime"⟩).requires_attribution =
        requiresAttribution (sampleLookup dep.name).license := by
  have hmem : mkPackageRecord sampleLookup ⟨"six", "", "runtime"⟩ ∈
      (generate_report sampleLookup sampleProject false false false [] "x").packages := by
    simp only [generate_report]
    rw [show filter_dependencies (get_all_dependencies sampleProject) false false false [] =
        [⟨"six", "", "runtime"⟩] from rfl, List.mergeSort_singleton]
    simp
  exact (C8_packages_sorted_and_merged sampleLookup sampleProject false false false [] "x").2
    (mkPackageRecord sampleLookup ⟨"six", "", "runtime"⟩) hmem

end LicenseReport
